import Mathlib

/-!
Verification of the schema-diff code generator of sqlalchemy-migrate
(`src/migrate/versioning/genmodel.py`), shallowly embedded in Lean.

The embedding follows the source line by line: Python strings become
`String`, optional attributes become `Option`, the truthiness of the
stored primary-key flag is kept explicit with `PyVal`, and the mutation
performed by `column_repr` (line 46 of the source sets
`col.primary_key = True`) is made visible by returning the updated
column alongside the rendered text.
-/

namespace GenModel

/-- A single quote character (Python string-repr delimiter). -/
def sq : String := String.singleton (Char.ofNat 39)

/-- Python whitespace characters recognised by `str.strip()`. -/
def pySpace (c : Char) : Bool :=
  c == Char.ofNat 32 || c == Char.ofNat 9 || c == Char.ofNat 10 ||
  c == Char.ofNat 13 || c == Char.ofNat 11 || c == Char.ofNat 12

/-- `str.strip()` on the underlying character list. -/
def pyStripList (l : List Char) : List Char :=
  ((l.dropWhile pySpace).reverse.dropWhile pySpace).reverse

/-- Python `str.strip()`: remove leading and trailing whitespace. -/
def pyStrip (s : String) : String := ⟨pyStripList s.data⟩

/-- Python repr of a plain string: surrounded by single quotes
(escaping is not modelled; identifiers here contain no quotes). -/
def pyStrRepr (s : String) : String := sq ++ s ++ sq

/-- The stored representation of a Python attribute that is logically a
flag: reflection may store the integer 1 where the model stores `True`.
Captures the remark at line 46 of the source
("otherwise it dumps it as 1"). -/
inductive PyVal where
  | bool (b : Bool)
  | int (n : Int)
deriving DecidableEq, Repr

/-- Python truthiness of a stored flag value. -/
def PyVal.truthy : PyVal → Bool
  | .bool b => b
  | .int n => n ≠ 0

/-- Python `repr` of a stored flag value. -/
def PyVal.reprStr : PyVal → String
  | .bool true => "True"
  | .bool false => "False"
  | .int n => toString n

/-- A Python class, identified by its module and name, as consulted by
the MRO walk at lines 67-72 of the source. -/
structure TypeCls where
  module : String
  name : String
deriving DecidableEq, Repr

/-- A SQLAlchemy type instance: its class, the method-resolution order
of that class (the class itself first, as in Python), and the rendered
constructor arguments of this particular instance. -/
structure TypeInst where
  cls : TypeCls
  mro : List TypeCls
  args : String
deriving DecidableEq, Repr

/-- Python `repr` of a type instance, e.g. `String(length=40)`. -/
def TypeInst.reprStr (t : TypeInst) : String :=
  t.cls.name ++ "(" ++ t.args ++ ")"

/-- Python `str.isupper()`: at least one cased character and no
lowercase cased character (ASCII suffices for class names). -/
def pyIsUpper (s : String) : Bool :=
  s.data.any (fun c => c.isAlpha) && s.data.all (fun c => !c.isLower)

/-- The test applied to each class of the MRO at lines 68-69 of the
source: declared in the portable types module and not an all-uppercase
literal SQL type name. -/
def qualifies (c : TypeCls) : Bool :=
  c.module == "sqlalchemy.types" && !(pyIsUpper c.name)

/-- A freshly constructed instance `cls()` (line 71 of the source):
default constructor arguments. -/
def freshInstance (c : TypeCls) : TypeInst :=
  { cls := c, mro := [c], args := "" }

/-- Lines 66-72 of the source: walk `col.type.__class__.__mro__` and
stop at the first class from `sqlalchemy.types` whose name is not all
uppercase; substitute a fresh instance of it unless it is the column
type itself. -/
def simplifyType (t : TypeInst) : TypeInst :=
  match t.mro.find? qualifies with
  | none => t
  | some c => if c = t.cls then t else freshInstance c

/-- Modelled from the spec: the spec reads the walk as substituting the
MOST GENERAL qualifying ancestor, i.e. the last qualifying entry of the
MRO.  Stated only to compare with `simplifyType`. -/
def simplifyTypeSpecMostGeneral (t : TypeInst) : TypeInst :=
  match (t.mro.filter qualifies).getLast? with
  | none => t
  | some c => if c = t.cls then t else freshInstance c

/-- A column definition as consumed by `ModelGenerator.column_repr`:
`onupdate`, `default` and each constraint are kept as their Python
repr strings (they are only ever rendered). -/
structure Col where
  name : String
  key : String
  primary_key : PyVal
  nullable : Bool
  onupdate : Option String
  default : Option String
  type : TypeInst
  constraints : List String
deriving DecidableEq, Repr

/-- The assignment at line 46 of the source: when the stored
primary-key flag is truthy it is overwritten with the boolean `True`. -/
def normalizePk (col : Col) : Col :=
  if col.primary_key.truthy then { col with primary_key := .bool true } else col

/-- Lines 42-59 of the source: the list of keyword-argument names that
will be rendered, in the order the source appends them. -/
def kwargNames (col : Col) : List String :=
  (if col.key ≠ col.name then ["key"] else []) ++
  (if col.primary_key.truthy then ["primary_key"] else []) ++
  (if !col.nullable then ["nullable"] else []) ++
  (if col.onupdate.isSome then ["onupdate"] else []) ++
  (if col.default.isSome then
    (if col.primary_key.truthy then [] else ["default"]) else [])

/-- Python `repr(getattr(col, k))` for each keyword argument name. -/
def getattrRepr (col : Col) : String → String
  | "key" => pyStrRepr col.key
  | "primary_key" => col.primary_key.reprStr
  | "nullable" => if col.nullable then "True" else "False"
  | "onupdate" => col.onupdate.getD ""
  | "default" => col.default.getD ""
  | _ => ""

/-- Line 60 of the source: `ks = ', '.join('%s=%r' % (k, getattr(col, k)) ...)`,
evaluated after the primary-key normalisation has taken place. -/
def ks (col : Col) : String :=
  String.intercalate ", "
    ((kwargNames col).map (fun k => k ++ "=" ++ getattrRepr (normalizePk col) k))

/-- Line 77 of the source: `', '.join([repr(cn) for cn in col.constraints])`. -/
def constraintsStr (col : Col) : String :=
  String.intercalate ", " col.constraints

/-- Lines 78-90 of the source: assemble the tail of the rendered
declaration (` %(maybeComma)s %(constraints)s %(args)s)` then `.strip()`). -/
def commonStuffStr (col : Col) : String :=
  let cs := constraintsStr col
  let args0 := ks col
  let args := if cs ≠ "" ∧ args0 ≠ "" then "," ++ args0 else args0
  let maybeComma := if cs ≠ "" ∨ args ≠ "" then "," else ""
  pyStrip (" " ++ maybeComma ++ " " ++ cs ++ " " ++ args ++ ")")

/-- `ModelGenerator.column_repr` (lines 41-95 of the source), with the
mutation of the input column made explicit: returns the column as it is
after the call together with the rendered declaration text. -/
def column_reprState (declarative : Bool) (col : Col) : Col × String :=
  let colOut := normalizePk col
  let type := simplifyType col.type
  let commonStuff := commonStuffStr col
  if declarative then
    (colOut, col.name ++ " = Column(" ++ type.reprStr ++ commonStuff)
  else
    (colOut, "Column(" ++ pyStrRepr col.name ++ ", " ++ type.reprStr ++ commonStuff)

/-- The rendered text of `column_repr`. -/
def column_repr (declarative : Bool) (col : Col) : String :=
  (column_reprState declarative col).2

/-- A table definition: a name and an ordered sequence of columns. -/
structure Table where
  name : String
  columns : List Col
deriving DecidableEq, Repr

/-- `ModelGenerator.getTableDefn` (lines 97-111 of the source). -/
def getTableDefn (declarative : Bool) (table : Table) : List String :=
  if declarative then
    ("class " ++ table.name ++ "(Base):") ::
    ("  __tablename__ = " ++ sq ++ table.name ++ sq) ::
    table.columns.map (fun c => "  " ++ column_repr true c)
  else
    (table.name ++ " = Table(" ++ sq ++ table.name ++ sq ++ ", meta,") ::
    (table.columns.map (fun c => "  " ++ column_repr false c ++ ",") ++ [")"])

/-- One altered-declaration entry of a per-table column diff: the
4-tuple `(modelCol, databaseCol, modelDecl, databaseDecl)` of the
source. -/
structure AlteredDecl where
  modelCol : Col
  dbCol : Col
  modelDecl : String
  dbDecl : String
deriving DecidableEq, Repr

/-- The per-table column diff `self.diff.colDiffs[tableName]`:
`(missingInDatabase, missingInModel, diffDecl)`. -/
structure TableDiff where
  missingInDatabase : List Col
  missingInModel : List Col
  diffDecl : List AlteredDecl
deriving Repr

/-- The diff report consumed by `ModelGenerator`, together with the
connection facts the generator reads from it (`conn.url.drivername`,
`reflected_model.tables`). -/
structure SchemaDiff where
  tablesMissingInModel : List Table
  tablesMissingInDatabase : List Table
  tablesWithDiff : List Table
  colDiffs : String → TableDiff
  reflectedTables : String → Table
  drivername : String

/-- A Python exception escaping the generator or the applier. -/
inductive PyErr where
  | typeError
  | opError (msg : String)
deriving DecidableEq, Repr

/-- Lines 146-167 of the source: the command lists contributed by the
tables-with-diff.  The altered-declaration branch calls `list.append`
with four arguments (lines 162-167), which raises `TypeError`, so a
non-empty `diffDecl` aborts the whole generation. -/
def tableDiffCmds (d : SchemaDiff) : List Table → Except PyErr (List String × List String)
  | [] => .ok ([], [])
  | t :: rest =>
    let td := d.colDiffs t.name
    let upCols :=
      td.missingInDatabase.map
        (fun c => t.name ++ ".columns[" ++ pyStrRepr c.name ++ "].create()") ++
      td.missingInModel.map
        (fun c => t.name ++ ".columns[" ++ pyStrRepr c.name ++ "].drop()")
    let downCols :=
      td.missingInDatabase.map
        (fun c => t.name ++ ".columns[" ++ pyStrRepr c.name ++ "].drop()") ++
      td.missingInModel.map
        (fun c => t.name ++ ".columns[" ++ pyStrRepr c.name ++ "].create()")
    if td.diffDecl.isEmpty then
      match tableDiffCmds d rest with
      | .ok (u, dn) => .ok (upCols ++ u, downCols ++ dn)
      | .error e => .error e
    else
      .error .typeError

/-- Lines 135-167 of the source: the full upgrade and downgrade command
lists (before indentation and joining). -/
def upgradeDowngradeCommands (d : SchemaDiff) :
    Except PyErr (List String × List String) :=
  let upTables :=
    d.tablesMissingInModel.map (fun t => t.name ++ ".drop()") ++
    d.tablesMissingInDatabase.map (fun t => t.name ++ ".create()")
  let downTables :=
    d.tablesMissingInModel.map (fun t => t.name ++ ".create()") ++
    d.tablesMissingInDatabase.map (fun t => t.name ++ ".drop()")
  match tableDiffCmds d d.tablesWithDiff with
  | .ok (u, dn) => .ok (upTables ++ u, downTables ++ dn)
  | .error e => .error e

/-- `ModelGenerator.toUpgradeDowngradePython` (lines 126-173 of the
source): returns `(declsText, upgradeText, downgradeText)`, or the
exception that escapes when an altered declaration is reached. -/
def toUpgradeDowngradePython (declarative : Bool) (d : SchemaDiff)
    (indent : String) : Except PyErr (String × String × String) :=
  let decls :=
    ["from migrate.changeset import schema", "meta = MetaData(migrate_engine)"] ++
    ((d.tablesMissingInModel ++ d.tablesMissingInDatabase).map
      (getTableDefn declarative)).flatten
  match upgradeDowngradeCommands d with
  | .error e => .error e
  | .ok (up, down) =>
    let pre := "    meta.bind = migrate_engine"
    .ok (String.intercalate "\n" decls,
         String.intercalate "\n" (pre :: up.map (fun l => indent ++ l)),
         String.intercalate "\n" (pre :: down.map (fun l => indent ++ l)))

/-- `dbCanHandleThisChange` (lines 181-186 of the source). -/
def dbCanHandleThisChange (drivername : String) (missingInDatabase missingInModel : List Col)
    (diffDecl : List AlteredDecl) : Bool :=
  if !missingInDatabase.isEmpty && missingInModel.isEmpty && diffDecl.isEmpty then
    true
  else
    !(drivername.startsWith "sqlite")

/-- A schema operation issued by `applyModel`, either through the
SQLAlchemy API or as a raw SQL string. -/
inductive Op where
  | dropTable (name : String)
  | createTable (name : String)
  | createColumn (table col : String)
  | dropColumn (table col : String)
  | alterColumn (table col : String)
  | rawSQL (s : String)
deriving DecidableEq, Repr

/-- The column names common to the model table and the reflected
database table, in model-table order (lines 220-223 of the source). -/
def commonColumns (modelCols dbCols : List String) : List String :=
  modelCols.filter (fun n => dbCols.contains n)

/-- `getCopyStatement` (lines 218-226 of the source). -/
def getCopyStatement (tableName tempName : String)
    (modelCols dbCols : List String) : String :=
  let commonColsStr := String.intercalate ", " (commonColumns modelCols dbCols)
  "INSERT INTO " ++ tableName ++ " (" ++ commonColsStr ++ ") SELECT " ++
    commonColsStr ++ " FROM " ++ tempName

/-- The statement sequence of the rebuild fallback (lines 210-241 of
the source): create temp copy, drop original, create new, copy common
columns, drop temp. -/
def rebuildStmts (modelTable dbTable : Table) : List Op :=
  let tempName := "_temp_" ++ modelTable.name
  [ .rawSQL ("CREATE TEMPORARY TABLE " ++ tempName ++ " as SELECT * from " ++
      modelTable.name),
    .dropTable modelTable.name,
    .createTable modelTable.name,
    .rawSQL (getCopyStatement modelTable.name tempName
      (modelTable.columns.map (fun c => c.name))
      (dbTable.columns.map (fun c => c.name))),
    .rawSQL ("DROP TABLE " ++ tempName) ]

/-- Lines 196-216 of the source: the operations applied for one
table-with-diff, choosing between the direct path and the rebuild. -/
def applyTableOps (drv : String) (d : SchemaDiff) (modelTable : Table) : List Op :=
  let dbTable := d.reflectedTables modelTable.name
  let td := d.colDiffs modelTable.name
  if dbCanHandleThisChange drv td.missingInDatabase td.missingInModel td.diffDecl then
    td.missingInDatabase.map (fun c => Op.createColumn modelTable.name c.name) ++
    td.missingInModel.map (fun c => Op.dropColumn modelTable.name c.name) ++
    td.diffDecl.map (fun a => Op.alterColumn modelTable.name a.dbCol.name)
  else
    rebuildStmts modelTable dbTable

/-- `ModelGenerator.applyModel` (lines 175-245 of the source) as the
plan of operations it issues, in order. -/
def applyModelPlan (d : SchemaDiff) : List Op :=
  d.tablesMissingInModel.map (fun t => Op.dropTable t.name) ++
  d.tablesMissingInDatabase.map (fun t => Op.createTable t.name) ++
  (d.tablesWithDiff.map (fun t => applyTableOps d.drivername d t)).flatten

/-- Observable transaction events of the rebuild fallback. -/
inductive TxEvent where
  | txBegin
  | exec (s : Op)
  | commit
  | rollback
deriving DecidableEq, Repr

/-- Lines 230-245 of the source: execute the statements of a list in
order inside one transaction; on the first failure roll back and
re-raise; after the last statement attempt the commit, rolling back if
the commit itself raises. -/
def runTx (exec : Op → Except PyErr Unit) (commitR : Except PyErr Unit) :
    List Op → List TxEvent → List TxEvent × Except PyErr Unit
  | [], acc =>
    match commitR with
    | .ok _ => (acc ++ [.commit], .ok ())
    | .error e => (acc ++ [.rollback], .error e)
  | s :: rest, acc =>
    match exec s with
    | .ok _ => runTx exec commitR rest (acc ++ [.exec s])
    | .error e => (acc ++ [.rollback], .error e)

/-- The transactional rebuild of one table (lines 228-245 of the
source): begin, run the rebuild statements, commit. -/
def runRebuild (exec : Op → Except PyErr Unit) (commitR : Except PyErr Unit)
    (modelTable dbTable : Table) : List TxEvent × Except PyErr Unit :=
  runTx exec commitR (rebuildStmts modelTable dbTable) [.txBegin]

/-! ### Helper lemmas -/

lemma pyStripList_space_comma (mid : List Char) :
    pyStripList (Char.ofNat 32 :: Char.ofNat 44 :: (mid ++ [Char.ofNat 41])) =
      Char.ofNat 44 :: (mid ++ [Char.ofNat 41]) := by
  unfold pyStripList
  rw [List.dropWhile_cons_of_pos (by decide), List.dropWhile_cons_of_neg (by decide)]
  have h1 : (Char.ofNat 44 :: (mid ++ [Char.ofNat 41])).reverse
      = Char.ofNat 41 :: (mid.reverse ++ [Char.ofNat 44]) := by
    simp
  rw [h1, List.dropWhile_cons_of_neg (by decide), ← h1, List.reverse_reverse]

lemma pyStrip_template (s : String) :
    pyStrip (" " ++ "," ++ s ++ ")") = "," ++ s ++ ")" := by
  have hsp : (" " : String).data = [Char.ofNat 32] := by decide
  have hcm : ("," : String).data = [Char.ofNat 44] := by decide
  have hpr : (")" : String).data = [Char.ofNat 41] := by decide
  apply String.ext
  show pyStripList ((" " ++ "," ++ s ++ ")").data) = ("," ++ s ++ ")").data
  rw [String.data_append, String.data_append, String.data_append, String.data_append,
    hsp, hcm, hpr]
  have h2 : ([Char.ofNat 32] ++ [Char.ofNat 44] ++ s.data) ++ [Char.ofNat 41] =
      Char.ofNat 32 :: Char.ofNat 44 :: (s.data ++ [Char.ofNat 41]) := by simp
  rw [h2, pyStripList_space_comma]
  simp

lemma dataSp : (" " : String).data = [Char.ofNat 32] := by decide

lemma dataSp2 : ("  " : String).data = [Char.ofNat 32, Char.ofNat 32] := by decide

lemma dataCm : ("," : String).data = [Char.ofNat 44] := by decide

lemma dataRp : (")" : String).data = [Char.ofNat 41] := by decide

lemma dataCmSp : (", " : String).data = [Char.ofNat 44, Char.ofNat 32] := by decide

lemma dataSpCm : (" ," : String).data = [Char.ofNat 32, Char.ofNat 44] := by decide

lemma dataSpCmSp : (" , " : String).data =
    [Char.ofNat 32, Char.ofNat 44, Char.ofNat 32] := by decide

/-- The four-way case analysis of the tail of the rendered declaration:
the constraints always precede the keyword arguments. -/
lemma commonStuff_decomp (c : Col) :
    ∃ pre mid, commonStuffStr c =
      pre ++ constraintsStr c ++ mid ++ ks c ++ ")" := by
  simp only [commonStuffStr]
  split_ifs with h1 h2 h3
  · refine ⟨", ", " ,", ?_⟩
    rw [show (" " ++ "," ++ " " ++ constraintsStr c ++ " " ++ ("," ++ ks c) ++ ")")
        = " " ++ "," ++ (" " ++ constraintsStr c ++ " " ++ ("," ++ ks c)) ++ ")" from by
      apply String.ext
      simp [String.data_append, dataSp, dataCm, dataRp, dataSpCm, dataSpCmSp]]
    rw [pyStrip_template]
    apply String.ext
    simp [String.data_append, dataSp, dataCm, dataRp, dataCmSp, dataSpCm]
  · exact absurd (Or.inl h1.1) h2
  · refine ⟨", ", " ", ?_⟩
    rw [show (" " ++ "," ++ " " ++ constraintsStr c ++ " " ++ ks c ++ ")")
        = " " ++ "," ++ (" " ++ constraintsStr c ++ " " ++ ks c) ++ ")" from by
      apply String.ext
      simp [String.data_append, dataSp, dataCm, dataRp, dataSpCm, dataSpCmSp]]
    rw [pyStrip_template]
    apply String.ext
    simp [String.data_append, dataSp, dataCm, dataRp, dataCmSp]
  · refine ⟨"", "", ?_⟩
    rw [not_or] at h3
    have hcs : constraintsStr c = "" := not_not.mp h3.1
    have hks : ks c = "" := not_not.mp h3.2
    rw [hcs, hks]
    decide

lemma dbCanHandle_iff (drv : String) (mid mim : List Col) (dd : List AlteredDecl) :
    dbCanHandleThisChange drv mid mim dd = true ↔
      ((mid ≠ [] ∧ mim = [] ∧ dd = []) ∨ drv.startsWith "sqlite" = false) := by
  unfold dbCanHandleThisChange
  split_ifs with h
  · simp only [Bool.and_eq_true, Bool.not_eq_true', List.isEmpty_eq_false,
      List.isEmpty_iff] at h
    obtain ⟨⟨ha, hb⟩, hc⟩ := h
    simp [ha, hb, hc]
  · simp only [Bool.and_eq_true, Bool.not_eq_true', List.isEmpty_eq_false,
      List.isEmpty_iff, not_and] at h
    constructor
    · intro hb
      exact Or.inr (by simpa using hb)
    · intro hb
      rcases hb with ⟨h1, h2, h3⟩ | h1
      · exact absurd h3 (h ⟨h1, h2⟩)
      · simpa using h1

/-! ### Example fixtures used by witnesses and counterexamples -/

/-- An `Integer` type instance from the portable types module. -/
def exType : TypeInst :=
  { cls := { module := "sqlalchemy.types", name := "Integer" },
    mro := [{ module := "sqlalchemy.types", name := "Integer" }], args := "" }

/-- A primary-key column with a (database-generated) default. -/
def cPkDef : Col :=
  { name := "id", key := "id", primary_key := .bool true, nullable := false,
    onupdate := none, default := some "ColumnDefault(7)", type := exType,
    constraints := [] }

/-- A non-primary-key column with a default. -/
def cNpkDef : Col :=
  { name := "qty", key := "qty", primary_key := .bool false, nullable := true,
    onupdate := none, default := some "ColumnDefault(0)", type := exType,
    constraints := [] }

/-- A column whose stored primary-key flag is the integer 1 (as
reflection produces it). -/
def colPkInt : Col :=
  { name := "id", key := "id", primary_key := .int 1, nullable := false,
    onupdate := none, default := none, type := exType, constraints := [] }

/-! ### Claim theorems -/

/-- C2: in `applyModel`, a table-with-diff is applied via the direct
path exactly when the change set is purely additive (non-empty
missing-in-database, nothing missing-in-model, no altered declarations)
or the driver name does not begin with `sqlite`; in every other case
the rebuild statement sequence is issued. -/
theorem dbCanHandleThisChange_direct_iff (drv : String) (d : SchemaDiff) (t : Table) :
    (dbCanHandleThisChange drv (d.colDiffs t.name).missingInDatabase
        (d.colDiffs t.name).missingInModel (d.colDiffs t.name).diffDecl = true ↔
      (((d.colDiffs t.name).missingInDatabase ≠ [] ∧
        (d.colDiffs t.name).missingInModel = [] ∧
        (d.colDiffs t.name).diffDecl = []) ∨ drv.startsWith "sqlite" = false)) ∧
    (applyTableOps drv d t = rebuildStmts t (d.reflectedTables t.name) ↔
      dbCanHandleThisChange drv (d.colDiffs t.name).missingInDatabase
        (d.colDiffs t.name).missingInModel (d.colDiffs t.name).diffDecl = false) := by
  refine ⟨dbCanHandle_iff _ _ _ _, ?_⟩
  simp only [applyTableOps]
  split_ifs with h
  · rw [h]
    simp only [Bool.true_eq_false, iff_false]
    intro heq
    have hmem : Op.rawSQL ("CREATE TEMPORARY TABLE " ++ ("_temp_" ++ t.name) ++
        " as SELECT * from " ++ t.name) ∈
        ((d.colDiffs t.name).missingInDatabase.map
          (fun c => Op.createColumn t.name c.name) ++
        (d.colDiffs t.name).missingInModel.map
          (fun c => Op.dropColumn t.name c.name) ++
        (d.colDiffs t.name).diffDecl.map
          (fun a => Op.alterColumn t.name a.dbCol.name)) := by
      rw [heq]
      simp [rebuildStmts]
    simp only [List.mem_append, List.mem_map] at hmem
    rcases hmem with (⟨_, _, hc⟩ | ⟨_, _, hc⟩) | ⟨_, _, hc⟩ <;> cases hc
  · simp [Bool.not_eq_true] at h
    simp [h]

/-- C5: the data-copy statement of the rebuild fallback is an INSERT
with an explicit column list: exactly the columns common to the model
and database tables, in model order, and the same list appears in the
INSERT column list and the SELECT projection. -/
theorem getCopyStatement_common_columns (t tmp : String) (m d : List String) :
    List.Sublist (commonColumns m d) m ∧
    (∀ n, n ∈ commonColumns m d ↔ n ∈ m ∧ n ∈ d) ∧
    ∃ s, s = String.intercalate ", " (commonColumns m d) ∧
      getCopyStatement t tmp m d =
        "INSERT INTO " ++ t ++ " (" ++ s ++ ") SELECT " ++ s ++ " FROM " ++ tmp := by
  refine ⟨List.filter_sublist m, fun n => ?_, _, rfl, rfl⟩
  simp [commonColumns, List.mem_filter, List.contains, List.elem_iff]

/-- C6: when a default is present, the `default` keyword argument is
rendered exactly when the column is not a primary key; a primary-key
column with a default renders without it. -/
theorem default_kwarg_suppressed (c : Col) (h : c.default.isSome = true) :
    ("default" ∈ kwargNames c ↔ c.primary_key.truthy = false) := by
  have hch : "default" ∈ kwargNames c ↔
      (c.default.isSome = true ∧ c.primary_key.truthy = false) := by
    unfold kwargNames
    split_ifs <;> simp_all
  rw [hch]
  simp [h]

/-- Witness for C6 at concrete columns: a primary-key column with a
default and a plain column with a default. -/
theorem default_kwarg_suppressed_witness :
    ("default" ∈ kwargNames cPkDef ↔ cPkDef.primary_key.truthy = false) ∧
    ("default" ∈ kwargNames cNpkDef ↔ cNpkDef.primary_key.truthy = false) :=
  ⟨default_kwarg_suppressed cPkDef rfl, default_kwarg_suppressed cNpkDef rfl⟩

/-- C9 counterexample: rendering a column whose stored primary-key flag
is the integer 1 changes that stored representation to the boolean
`True`, so `column_repr` does not leave every field exactly as it was. -/
theorem column_repr_mutates_stored_pk :
    (column_reprState false colPkInt).1 ≠ colPkInt ∧
    colPkInt.primary_key = PyVal.int 1 ∧
    (column_reprState false colPkInt).1.primary_key = PyVal.bool true := by
  refine ⟨?_, rfl, rfl⟩
  intro h
  have h2 := congrArg (fun c => c.primary_key) h
  simp only [column_reprState, normalizePk] at h2
  revert h2
  decide

/-- C9 amended: rendering leaves every field of the column unchanged
except the stored primary-key flag, which is normalised to the boolean
`True` when it was truthy (its truth value is preserved, and a
non-truthy flag is left untouched). -/
theorem column_repr_frame (d : Bool) (c : Col) :
    ((column_reprState d c).1.name = c.name ∧
     (column_reprState d c).1.key = c.key ∧
     (column_reprState d c).1.nullable = c.nullable ∧
     (column_reprState d c).1.onupdate = c.onupdate ∧
     (column_reprState d c).1.default = c.default ∧
     (column_reprState d c).1.type = c.type ∧
     (column_reprState d c).1.constraints = c.constraints) ∧
    (column_reprState d c).1.primary_key =
      (if c.primary_key.truthy then PyVal.bool true else c.primary_key) ∧
    ((column_reprState d c).1.primary_key).truthy = c.primary_key.truthy := by
  have h1 : (column_reprState d c).1 = normalizePk c := by cases d <;> rfl
  rw [h1]
  unfold normalizePk
  split_ifs with h <;> simp_all [PyVal.truthy]

/-- C10: the rebuild fallback always uses the temporary table name
`_temp_` followed by the target table name, uses it consistently in the
create-temp, copy, and drop-temp statements, and issues an
unconditional fixed statement list (no existence check of any kind). -/
theorem rebuildStmts_temp_name (t dbT : Table) :
    ∃ tmp, tmp = "_temp_" ++ t.name ∧
      rebuildStmts t dbT =
        [ Op.rawSQL ("CREATE TEMPORARY TABLE " ++ tmp ++ " as SELECT * from " ++ t.name),
          Op.dropTable t.name,
          Op.createTable t.name,
          Op.rawSQL (getCopyStatement t.name tmp (t.columns.map (fun c => c.name))
            (dbT.columns.map (fun c => c.name))),
          Op.rawSQL ("DROP TABLE " ++ tmp) ] ∧
      ∃ s, getCopyStatement t.name tmp (t.columns.map (fun c => c.name))
            (dbT.columns.map (fun c => c.name)) =
          "INSERT INTO " ++ t.name ++ " (" ++ s ++ ") SELECT " ++ s ++ " FROM " ++ tmp :=
  ⟨"_temp_" ++ t.name, rfl, rfl, _, rfl⟩

lemma normalizePk_name (c : Col) : (normalizePk c).name = c.name := by
  unfold normalizePk; split_ifs <;> rfl

lemma normalizePk_type (c : Col) : (normalizePk c).type = c.type := by
  unfold normalizePk; split_ifs <;> rfl

lemma normalizePk_idem (c : Col) : normalizePk (normalizePk c) = normalizePk c := by
  unfold normalizePk
  split_ifs with h1 h2
  · rfl
  · exact absurd rfl h2
  · rfl

lemma kwargNames_normalizePk (c : Col) : kwargNames (normalizePk c) = kwargNames c := by
  by_cases h : c.primary_key.truthy = true
  · have hn : normalizePk c = { c with primary_key := PyVal.bool true } := by
      unfold normalizePk; rw [if_pos h]
    rw [hn]
    unfold kwargNames
    rw [show ({ c with primary_key := PyVal.bool true } : Col).primary_key.truthy = true
      from rfl, h]
  · have hn : normalizePk c = c := by
      unfold normalizePk; rw [if_neg h]
    rw [hn]

lemma ks_normalizePk (c : Col) : ks (normalizePk c) = ks c := by
  unfold ks
  rw [kwargNames_normalizePk, normalizePk_idem]

lemma constraintsStr_normalizePk (c : Col) :
    constraintsStr (normalizePk c) = constraintsStr c := by
  unfold constraintsStr normalizePk; split_ifs <;> rfl

lemma commonStuffStr_normalizePk (c : Col) :
    commonStuffStr (normalizePk c) = commonStuffStr c := by
  unfold commonStuffStr
  rw [constraintsStr_normalizePk, ks_normalizePk]

/-- C7: keyword arguments always appear in the fixed order key,
primary_key, nullable, onupdate, default (the rendered list is a
sublist of that fixed sequence); rendering is deterministic (rendering
the column again, after the state change of the first call, yields the
same text); and the constraints appear in the text before the keyword
arguments, right before the closing parenthesis. -/
theorem column_repr_fixed_order (d : Bool) (c : Col) :
    List.Sublist (kwargNames c)
      ["key", "primary_key", "nullable", "onupdate", "default"] ∧
    column_repr d ((column_reprState d c).1) = column_repr d c ∧
    ∃ pre mid, column_repr d c = pre ++ constraintsStr c ++ mid ++ ks c ++ ")" := by
  refine ⟨?_, ?_, ?_⟩
  · unfold kwargNames
    split_ifs <;> decide
  · have h1 : (column_reprState d c).1 = normalizePk c := by cases d <;> rfl
    rw [h1]
    cases d <;>
      simp [column_repr, column_reprState, commonStuffStr_normalizePk,
        normalizePk_name, normalizePk_type]
  · obtain ⟨pre, mid, hdec⟩ := commonStuff_decomp c
    cases d
    · refine ⟨"Column(" ++ pyStrRepr c.name ++ ", " ++
        (simplifyType c.type).reprStr ++ pre, mid, ?_⟩
      simp only [column_repr, column_reprState, if_neg (by simp : ¬False = True)]
      rw [hdec]
      simp [String.append_assoc]
    · refine ⟨c.name ++ " = Column(" ++ (simplifyType c.type).reprStr ++ pre, mid, ?_⟩
      simp only [column_repr, column_reprState, if_pos rfl]
      rw [hdec]
      simp [String.append_assoc]

/-- A vendor string type whose MRO contains several qualifying portable
classes (String, Concatenable, TypeEngine), as in SQLAlchemy. -/
def msStringType : TypeInst :=
  { cls := { module := "sqlalchemy.databases.mysql", name := "MSString" },
    mro := [ { module := "sqlalchemy.databases.mysql", name := "MSString" },
             { module := "sqlalchemy.types", name := "String" },
             { module := "sqlalchemy.types", name := "Concatenable" },
             { module := "sqlalchemy.types", name := "TypeEngine" } ],
    args := "length=40" }

/-- A column carrying the vendor string type. -/
def colMs : Col :=
  { name := "login", key := "login", primary_key := .bool false, nullable := true,
    onupdate := none, default := none, type := msStringType, constraints := [] }

/-- C8 counterexample: the code substitutes the FIRST qualifying class
of the MRO walk (String), not the most general one (TypeEngine), and
the rendered declaration shows the fresh String instance. -/
theorem simplifyType_not_most_general :
    simplifyType msStringType ≠ simplifyTypeSpecMostGeneral msStringType ∧
    simplifyType msStringType =
      freshInstance { module := "sqlalchemy.types", name := "String" } ∧
    simplifyTypeSpecMostGeneral msStringType =
      freshInstance { module := "sqlalchemy.types", name := "TypeEngine" } ∧
    column_repr false colMs =
      "Column(" ++ sq ++ "login" ++ sq ++ ", String())" := by
  refine ⟨by decide, by decide, by decide, by decide⟩

/-- C8 amended: the rendered type is obtained by walking the MRO and
substituting a fresh instance of the FIRST (most specific) ancestor
from the standard types module whose name is not all-uppercase; if that
class is the column type class itself, or no class qualifies, the
original instance is rendered unchanged. -/
theorem simplifyType_first_qualifying (t : TypeInst) :
    ((∀ x ∈ t.mro, qualifies x = false) → simplifyType t = t) ∧
    (∀ pre c rest, t.mro = pre ++ c :: rest →
      (∀ x ∈ pre, qualifies x = false) → qualifies c = true →
      simplifyType t = if c = t.cls then t else freshInstance c) := by
  constructor
  · intro h
    unfold simplifyType
    rw [List.find?_eq_none.mpr (fun x hx => by simp [h x hx])]
  · intro pre c rest hmro hpre hc
    unfold simplifyType
    rw [hmro]
    have hfind : ∀ (p : List TypeCls), (∀ x ∈ p, qualifies x = false) →
        List.find? qualifies (p ++ c :: rest) = some c := by
      intro p
      induction p with
      | nil =>
        intro _
        simpa using List.find?_cons_of_pos _ hc
      | cons x xs ih =>
        intro hp
        rw [List.cons_append, List.find?_cons_of_neg]
        · exact ih (fun y hy => hp y (by simp [hy]))
        · simp [hp x (by simp)]
    rw [hfind pre hpre]

/-- Witness for C8 at the vendor string type: the walk selects the
fresh String instance. -/
theorem simplifyType_first_qualifying_witness :
    simplifyType msStringType =
      (if ({ module := "sqlalchemy.types", name := "String" } : TypeCls) =
          msStringType.cls
       then msStringType
       else freshInstance { module := "sqlalchemy.types", name := "String" }) :=
  (simplifyType_first_qualifying msStringType).2
    [{ module := "sqlalchemy.databases.mysql", name := "MSString" }]
    { module := "sqlalchemy.types", name := "String" }
    [{ module := "sqlalchemy.types", name := "Concatenable" },
     { module := "sqlalchemy.types", name := "TypeEngine" }]
    (by rfl) (by decide) (by decide)

lemma runTx_fail_in (exec : Op → Except PyErr Unit) (commitR : Except PyErr Unit)
    (e : PyErr) :
    ∀ (pre : List Op) (s : Op) (post : List Op) (acc : List TxEvent),
      (∀ x ∈ pre, exec x = .ok ()) → exec s = .error e →
      runTx exec commitR (pre ++ s :: post) acc =
        (acc ++ pre.map TxEvent.exec ++ [TxEvent.rollback], .error e) := by
  intro pre
  induction pre with
  | nil =>
    intro s post acc hpre hs
    simp [runTx, hs]
  | cons x xs ih =>
    intro s post acc hpre hs
    have hx : exec x = .ok () := hpre x (by simp)
    rw [List.cons_append]
    rw [show runTx exec commitR (x :: (xs ++ s :: post)) acc =
        runTx exec commitR (xs ++ s :: post) (acc ++ [.exec x]) from by
      simp [runTx, hx]]
    rw [ih s post _ (fun y hy => hpre y (by simp [hy])) hs]
    simp

lemma runTx_commit_fail (exec : Op → Except PyErr Unit) (e : PyErr) :
    ∀ (l : List Op) (acc : List TxEvent),
      (∀ x ∈ l, exec x = .ok ()) →
      runTx exec (.error e) l acc =
        (acc ++ l.map TxEvent.exec ++ [TxEvent.rollback], .error e) := by
  intro l
  induction l with
  | nil =>
    intro acc _
    simp [runTx]
  | cons x xs ih =>
    intro acc hok
    have hx : exec x = .ok () := hok x (by simp)
    rw [show runTx exec (.error e) (x :: xs) acc =
        runTx exec (.error e) xs (acc ++ [.exec x]) from by
      simp [runTx, hx]]
    rw [ih _ (fun y hy => hok y (by simp [hy]))]
    simp

/-- C3: if any step of the rebuild sequence (create temp copy, drop
original, create new, copy, drop temp — or the final commit) fails,
the transaction is rolled back as the very last action, the same
exception is re-raised unchanged, and no commit ever happens, so the
rebuild leaves no committed change. -/
theorem rebuild_rollback_on_failure (exec : Op → Except PyErr Unit)
    (commitR : Except PyErr Unit) (t dbT : Table) (e : PyErr)
    (h : (∃ pre s post, rebuildStmts t dbT = pre ++ s :: post ∧
           (∀ x ∈ pre, exec x = .ok ()) ∧ exec s = .error e) ∨
         ((∀ x ∈ rebuildStmts t dbT, exec x = .ok ()) ∧ commitR = .error e)) :
    (runRebuild exec commitR t dbT).2 = .error e ∧
    (runRebuild exec commitR t dbT).1.getLast? = some TxEvent.rollback ∧
    TxEvent.commit ∉ (runRebuild exec commitR t dbT).1 := by
  unfold runRebuild
  rcases h with ⟨pre, s, post, heq, hpre, hs⟩ | ⟨hok, hc⟩
  · rw [heq, runTx_fail_in exec commitR e pre s post [.txBegin] hpre hs]
    refine ⟨rfl, List.getLast?_concat _, ?_⟩
    simp
  · subst hc
    rw [runTx_commit_fail exec e _ [.txBegin] hok]
    refine ⟨rfl, List.getLast?_concat _, ?_⟩
    simp

/-- An executor that fails exactly on the drop of table t. -/
def execFailDrop : Op → Except PyErr Unit :=
  fun s => if s = Op.dropTable "t" then .error (.opError "boom") else .ok ()

/-- Witness for C3: a rebuild of table t whose drop step fails is
rolled back, re-raises the failure, and never commits. -/
theorem rebuild_rollback_on_failure_witness :
    (runRebuild execFailDrop (.ok ()) ⟨"t", []⟩ ⟨"t", []⟩).2 =
      .error (.opError "boom") ∧
    (runRebuild execFailDrop (.ok ()) ⟨"t", []⟩ ⟨"t", []⟩).1.getLast? =
      some TxEvent.rollback ∧
    TxEvent.commit ∉ (runRebuild execFailDrop (.ok ()) ⟨"t", []⟩ ⟨"t", []⟩).1 :=
  rebuild_rollback_on_failure execFailDrop (.ok ()) ⟨"t", []⟩ ⟨"t", []⟩
    (.opError "boom")
    (Or.inl ⟨[Op.rawSQL ("CREATE TEMPORARY TABLE _temp_t as SELECT * from t")],
      Op.dropTable "t",
      [Op.createTable "t",
       Op.rawSQL (getCopyStatement "t" "_temp_t" [] []),
       Op.rawSQL "DROP TABLE _temp_t"],
      by decide,
      by
        intro x hx
        rw [List.mem_singleton] at hx
        subst hx
        rfl,
      rfl⟩)

/-! ### The migration-script generator on altered declarations -/

/-- A string column used in the altered-declaration fixtures. -/
def loginCol : Col :=
  { name := "login", key := "login", primary_key := .bool false, nullable := true,
    onupdate := none, default := none, type := exType, constraints := [] }

/-- The renamed counterpart of `loginCol`. -/
def loginNameCol : Col :=
  { name := "login_name", key := "login_name", primary_key := .bool false,
    nullable := true, onupdate := none, default := none, type := exType,
    constraints := [] }

/-- The accounts table of the spec example. -/
def accountsTable : Table := ⟨"accounts", [loginCol]⟩

/-- A diff whose only content is one altered-declaration entry for the
accounts table (login versus login_name). -/
def dC1 : SchemaDiff :=
  { tablesMissingInModel := [], tablesMissingInDatabase := [],
    tablesWithDiff := [accountsTable],
    colDiffs := fun _ => ⟨[], [], [⟨loginCol, loginNameCol, "", ""⟩]⟩,
    reflectedTables := fun _ => accountsTable,
    drivername := "postgresql" }

/-- C1 (code bug): on the diff with one altered-declaration entry for
the accounts table, the generator raises TypeError (the source calls
list.append with four arguments at lines 162-167) instead of returning
upgrade and downgrade texts containing a rendered assertion failure. -/
theorem altered_decl_generator_raises :
    toUpgradeDowngradePython false dC1 "    " = .error .typeError ∧
    ¬ ∃ r, toUpgradeDowngradePython false dC1 "    " = .ok r := by
  refine ⟨rfl, ?_⟩
  rintro ⟨r, hr⟩
  rw [show toUpgradeDowngradePython false dC1 "    " = .error .typeError from rfl] at hr
  cases hr

/-- Two upgrade and downgrade commands mirror each other when they act
on the same rendered object, one dropping what the other creates. -/
def mirrorCmd (a b : String) : Prop :=
  (∃ n, a = n ++ ".drop()" ∧ b = n ++ ".create()") ∨
  (∃ n, a = n ++ ".create()" ∧ b = n ++ ".drop()")

lemma split_drop (a : String) : a ++ "].drop()" = (a ++ "]") ++ ".drop()" := by
  rw [String.append_assoc]
  rw [show ("]" ++ ".drop()" : String) = "].drop()" from by decide]

lemma split_create (a : String) : a ++ "].create()" = (a ++ "]") ++ ".create()" := by
  rw [String.append_assoc]
  rw [show ("]" ++ ".create()" : String) = "].create()" from by decide]

lemma forall2_map_pair {α β : Type} (R : β → β → Prop) (f g : α → β)
    (l : List α) (h : ∀ x ∈ l, R (f x) (g x)) :
    List.Forall₂ R (l.map f) (l.map g) := by
  induction l with
  | nil => exact .nil
  | cons x xs ih =>
    exact .cons (h x (by simp)) (ih (fun y hy => h y (by simp [hy])))

lemma tableDiffCmds_mirror (d : SchemaDiff) :
    ∀ (ts : List Table),
      (∀ t ∈ ts, (d.colDiffs t.name).diffDecl = []) →
      ∃ u dn, tableDiffCmds d ts = .ok (u, dn) ∧
        List.Forall₂ mirrorCmd u dn ∧ List.Forall₂ mirrorCmd dn u := by
  intro ts
  induction ts with
  | nil =>
    intro _
    exact ⟨[], [], rfl, .nil, .nil⟩
  | cons t rest ih =>
    intro h
    obtain ⟨u, dn, hrec, hf, hb⟩ := ih (fun x hx => h x (by simp [hx]))
    have ht : (d.colDiffs t.name).diffDecl = [] := h t (by simp)
    have hup : List.Forall₂ mirrorCmd
        ((d.colDiffs t.name).missingInDatabase.map
          (fun c => t.name ++ ".columns[" ++ pyStrRepr c.name ++ "].create()") ++
         (d.colDiffs t.name).missingInModel.map
          (fun c => t.name ++ ".columns[" ++ pyStrRepr c.name ++ "].drop()"))
        ((d.colDiffs t.name).missingInDatabase.map
          (fun c => t.name ++ ".columns[" ++ pyStrRepr c.name ++ "].drop()") ++
         (d.colDiffs t.name).missingInModel.map
          (fun c => t.name ++ ".columns[" ++ pyStrRepr c.name ++ "].create()")) :=
      List.rel_append
        (forall2_map_pair mirrorCmd _ _ _
          (fun x _ => Or.inr ⟨t.name ++ ".columns[" ++ pyStrRepr x.name ++ "]",
            split_create _, split_drop _⟩))
        (forall2_map_pair mirrorCmd _ _ _
          (fun x _ => Or.inl ⟨t.name ++ ".columns[" ++ pyStrRepr x.name ++ "]",
            split_drop _, split_create _⟩))
    have hdown : List.Forall₂ mirrorCmd
        ((d.colDiffs t.name).missingInDatabase.map
          (fun c => t.name ++ ".columns[" ++ pyStrRepr c.name ++ "].drop()") ++
         (d.colDiffs t.name).missingInModel.map
          (fun c => t.name ++ ".columns[" ++ pyStrRepr c.name ++ "].create()"))
        ((d.colDiffs t.name).missingInDatabase.map
          (fun c => t.name ++ ".columns[" ++ pyStrRepr c.name ++ "].create()") ++
         (d.colDiffs t.name).missingInModel.map
          (fun c => t.name ++ ".columns[" ++ pyStrRepr c.name ++ "].drop()")) :=
      List.rel_append
        (forall2_map_pair mirrorCmd _ _ _
          (fun x _ => Or.inl ⟨t.name ++ ".columns[" ++ pyStrRepr x.name ++ "]",
            split_drop _, split_create _⟩))
        (forall2_map_pair mirrorCmd _ _ _
          (fun x _ => Or.inr ⟨t.name ++ ".columns[" ++ pyStrRepr x.name ++ "]",
            split_create _, split_drop _⟩))
    refine ⟨_, _, ?_, List.rel_append hup hf, List.rel_append hdown hb⟩
    rw [show tableDiffCmds d (t :: rest) =
        (if (d.colDiffs t.name).diffDecl.isEmpty then
          match tableDiffCmds d rest with
          | .ok (u2, dn2) =>
            .ok ((d.colDiffs t.name).missingInDatabase.map
                  (fun c => t.name ++ ".columns[" ++ pyStrRepr c.name ++ "].create()") ++
                 (d.colDiffs t.name).missingInModel.map
                  (fun c => t.name ++ ".columns[" ++ pyStrRepr c.name ++ "].drop()") ++ u2,
                 (d.colDiffs t.name).missingInDatabase.map
                  (fun c => t.name ++ ".columns[" ++ pyStrRepr c.name ++ "].drop()") ++
                 (d.colDiffs t.name).missingInModel.map
                  (fun c => t.name ++ ".columns[" ++ pyStrRepr c.name ++ "].create()") ++ dn2)
          | .error e2 => .error e2
        else .error .typeError) from rfl]
    rw [ht, hrec]
    simp

/-- C4 amended: for a diff with no altered-declaration entries, the
generator succeeds and the downgrade command sequence is the exact
element-wise mirror of the upgrade sequence (drop of an object paired
with create of the same object), in both directions; a diff with an
altered-declaration entry instead aborts with TypeError before any
text is produced. -/
theorem downgrade_mirror (d : SchemaDiff)
    (h : ∀ t ∈ d.tablesWithDiff, (d.colDiffs t.name).diffDecl = []) :
    ∃ up down, upgradeDowngradeCommands d = .ok (up, down) ∧
      List.Forall₂ mirrorCmd up down ∧ List.Forall₂ mirrorCmd down up := by
  obtain ⟨u, dn, hcmds, hf, hb⟩ := tableDiffCmds_mirror d d.tablesWithDiff h
  have htm : List.Forall₂ mirrorCmd
      (d.tablesMissingInModel.map (fun t => t.name ++ ".drop()") ++
       d.tablesMissingInDatabase.map (fun t => t.name ++ ".create()"))
      (d.tablesMissingInModel.map (fun t => t.name ++ ".create()") ++
       d.tablesMissingInDatabase.map (fun t => t.name ++ ".drop()")) :=
    List.rel_append
      (forall2_map_pair mirrorCmd _ _ _ (fun x _ => Or.inl ⟨x.name, rfl, rfl⟩))
      (forall2_map_pair mirrorCmd _ _ _ (fun x _ => Or.inr ⟨x.name, rfl, rfl⟩))
  have htm2 : List.Forall₂ mirrorCmd
      (d.tablesMissingInModel.map (fun t => t.name ++ ".create()") ++
       d.tablesMissingInDatabase.map (fun t => t.name ++ ".drop()"))
      (d.tablesMissingInModel.map (fun t => t.name ++ ".drop()") ++
       d.tablesMissingInDatabase.map (fun t => t.name ++ ".create()")) :=
    List.rel_append
      (forall2_map_pair mirrorCmd _ _ _ (fun x _ => Or.inr ⟨x.name, rfl, rfl⟩))
      (forall2_map_pair mirrorCmd _ _ _ (fun x _ => Or.inl ⟨x.name, rfl, rfl⟩))
  refine ⟨_, _, ?_, List.rel_append htm hf, List.rel_append htm2 hb⟩
  unfold upgradeDowngradeCommands
  rw [hcmds]

/-- A users table with one column missing from the database, used as a
mirror witness. -/
def usersTable : Table := ⟨"users", [loginCol]⟩

/-- A diff with one table missing in the database and one purely
additive table-with-diff entry (no altered declarations). -/
def dMirror : SchemaDiff :=
  { tablesMissingInModel := [],
    tablesMissingInDatabase := [usersTable],
    tablesWithDiff := [accountsTable],
    colDiffs := fun _ => ⟨[loginNameCol], [], []⟩,
    reflectedTables := fun _ => accountsTable,
    drivername := "sqlite" }

/-- Witness for C4 at a concrete altered-free diff. -/
theorem downgrade_mirror_witness :
    ∃ up down, upgradeDowngradeCommands dMirror = .ok (up, down) ∧
      List.Forall₂ mirrorCmd up down ∧ List.Forall₂ mirrorCmd down up :=
  downgrade_mirror dMirror (by intro t ht; simp [dMirror] at ht ⊢)

/-- The altered-declaration diff used to refute the unrestricted mirror
claim: table users2, column old_name versus new_name. -/
def dC4 : SchemaDiff :=
  { tablesMissingInModel := [], tablesMissingInDatabase := [],
    tablesWithDiff := [⟨"users2", []⟩],
    colDiffs := fun _ => ⟨[], [],
      [⟨{ loginCol with name := "old_name", key := "old_name" },
        { loginCol with name := "new_name", key := "new_name" }, "", ""⟩]⟩,
    reflectedTables := fun _ => ⟨"users2", []⟩,
    drivername := "postgresql" }

/-- C4 counterexample: on a diff containing an altered-declaration
entry the generator returns no downgrade text at all (it raises
TypeError), so the unrestricted mirror claim fails there. -/
theorem downgrade_mirror_counterexample :
    toUpgradeDowngradePython false dC4 "    " = .error .typeError ∧
    ¬ ∃ r, toUpgradeDowngradePython false dC4 "    " = .ok r := by
  refine ⟨rfl, ?_⟩
  rintro ⟨r, hr⟩
  rw [show toUpgradeDowngradePython false dC4 "    " = .error .typeError from rfl] at hr
  cases hr

end GenModel
